import Mathlib

/-!
Shallow embedding of the multique crate's credential lifecycle and
resilient-post protocol, translated from `src/bluesky.rs`, `src/twitter.rs`,
`src/mastodon.rs`, `src/posts.rs` and `src/main.rs`.

Conventions of the embedding:
* A platform's token file is an `Option (List Char)`: `none` means the file
  does not exist (`Path::new(TOKEN_FILE).exists()` is false), `some s` means
  the file exists with content `s`.
* `serde_json::to_string` / `serde_json::from_str` on the three token-record
  structs are modelled by specialised `toJson` / `fromJson` functions that
  produce exactly serde's canonical output for those structs
  (fields in declaration order, strings escaped) and parse it back;
  `from_str(..).ok()` maps any parse failure to `none`.
* Network responses are inputs to the functions: each endpoint call consumes
  a response value describing whether the request transported, whether the
  HTTP status was a success / 401 / other failure, and the parsed body.
* Side effects that the resilient-post code performs are recorded in an
  event trace (`Event`): each `createRecord`/`tweets` attempt, each
  `refreshSession` / `oauth2 token` refresh call, each reauthorization, and
  each blocking read of an authorization code from stdin.
-/

/-! ## JSON string layer (model of serde_json on the token-record structs) -/

/-- Escaping of one character inside a JSON string literal, as produced by
`serde_json::to_string`: a double quote or backslash is preceded by a
backslash (control-character escapes do not occur in the properties at
issue and other characters are emitted verbatim). -/
def escChar (c : Char) : List Char :=
  if c = '"' ∨ c = '\\' then ['\\', c] else [c]

/-- Escaping of a whole string, character by character. -/
def escString : List Char → List Char
  | [] => []
  | c :: tl => escChar c ++ escString tl

/-- Parse the body of a JSON string literal up to and including its closing
double quote; returns the unescaped content and the remaining input. -/
def parseStr (l : List Char) : Option (List Char × List Char) :=
  match l with
  | [] => none
  | c :: rest =>
    if c = '"' then some ([], rest)
    else if c = '\\' then
      match rest with
      | [] => none
      | c2 :: rest2 =>
        match parseStr rest2 with
        | none => none
        | some (cs, r) => some (c2 :: cs, r)
    else
      match parseStr rest with
      | none => none
      | some (cs, r) => some (c :: cs, r)

/-- Consume an expected literal from the front of the input. -/
def dropLit (lit s : List Char) : Option (List Char) :=
  match lit, s with
  | [], s => some s
  | _ :: _, [] => none
  | c :: cs, d :: ds => if c = d then dropLit cs ds else none

/-! ## Credential Store

`save_tokens` in each of the three platform modules serialises the record and
then `fs::write(TOKEN_FILE, json).expect("Failed to write token file")`: a
failed filesystem write makes the process panic via `.expect`; no error value
is returned to the caller.  `writeOk` says whether the filesystem write
succeeds. -/

/-- Outcome of a `save_tokens` call: either the token file now holds the new
content (any prior content is overwritten), or the `.expect` on `fs::write`
fired and the surrounding task panicked. -/
inductive SaveOutcome where
  | ok (file : Option (List Char))
  | panicked
deriving DecidableEq, Repr

namespace Bluesky

/-- `bluesky::TokenData` (src/bluesky.rs). -/
structure TokenData where
  access_jwt : String
  refresh_jwt : String
  did : String
deriving DecidableEq, Repr

/-- Model of `serde_json::to_string` on `bluesky::TokenData`. -/
def toJson (t : TokenData) : List Char :=
  "\x7b\"access_jwt\":\"".toList ++
    (escString t.access_jwt.toList ++ ('"' ::
      (",\"refresh_jwt\":\"".toList ++
        (escString t.refresh_jwt.toList ++ ('"' ::
          (",\"did\":\"".toList ++
            (escString t.did.toList ++ ('"' :: "\x7d".toList))))))))

/-- Model of `serde_json::from_str::<bluesky::TokenData>` (`.ok()` applied). -/
def fromJson (s : List Char) : Option TokenData :=
  (dropLit "\x7b\"access_jwt\":\"".toList s).bind fun s1 =>
  (parseStr s1).bind fun p1 =>
  (dropLit ",\"refresh_jwt\":\"".toList p1.2).bind fun s2 =>
  (parseStr s2).bind fun p2 =>
  (dropLit ",\"did\":\"".toList p2.2).bind fun s3 =>
  (parseStr s3).bind fun p3 =>
  if p3.2 = "\x7d".toList then
    some ⟨String.mk p1.1, String.mk p2.1, String.mk p3.1⟩
  else none

/-- `bluesky::save_tokens` (src/bluesky.rs lines 19-27): serialises the record
and writes it to `bluesky_tokens.json`, overwriting prior content; a failed
write panics through `.expect`. -/
def save_tokens (access_jwt refresh_jwt did : String) (writeOk : Bool)
    (fileBefore : Option (List Char)) : SaveOutcome :=
  if writeOk then SaveOutcome.ok (some (toJson ⟨access_jwt, refresh_jwt, did⟩))
  else SaveOutcome.panicked

/-- `bluesky::load_tokens` (src/bluesky.rs lines 29-36): `none` if the file
does not exist, else `serde_json::from_str(&json).ok()`. -/
def load_tokens (file : Option (List Char)) : Option TokenData :=
  match file with
  | none => none
  | some json => fromJson json

end Bluesky

namespace Twitter

/-- `twitter::TokenData` (src/twitter.rs). -/
structure TokenData where
  access_token : String
  refresh_token : Option String
deriving DecidableEq, Repr

/-- Model of `serde_json::to_string` on `twitter::TokenData` (`None` is
serialised as `null`). -/
def toJson (t : TokenData) : List Char :=
  "\x7b\"access_token\":\"".toList ++
    (escString t.access_token.toList ++ ('"' ::
      (",\"refresh_token\":".toList ++
        (match t.refresh_token with
         | none => "null\x7d".toList
         | some r => '"' :: (escString r.toList ++ ('"' :: "\x7d".toList))))))

/-- Model of `serde_json::from_str::<twitter::TokenData>` (`.ok()` applied). -/
def fromJson (s : List Char) : Option TokenData :=
  (dropLit "\x7b\"access_token\":\"".toList s).bind fun s1 =>
  (parseStr s1).bind fun p1 =>
  (dropLit ",\"refresh_token\":".toList p1.2).bind fun s2 =>
  match s2 with
  | 'n' :: rest =>
      if rest = "ull\x7d".toList then some ⟨String.mk p1.1, none⟩ else none
  | '"' :: rest =>
      (parseStr rest).bind fun p2 =>
      if p2.2 = "\x7d".toList then
        some ⟨String.mk p1.1, some (String.mk p2.1)⟩
      else none
  | _ => none

/-- `twitter::save_tokens` (src/twitter.rs lines 20-27): serialises the record
and writes it to `twitter_tokens.json`, overwriting prior content; a failed
write panics through `.expect`. -/
def save_tokens (access_token : String) (refresh_token : Option String)
    (writeOk : Bool) (fileBefore : Option (List Char)) : SaveOutcome :=
  if writeOk then SaveOutcome.ok (some (toJson ⟨access_token, refresh_token⟩))
  else SaveOutcome.panicked

/-- `twitter::load_tokens` (src/twitter.rs lines 37-44). -/
def load_tokens (file : Option (List Char)) : Option TokenData :=
  match file with
  | none => none
  | some json => fromJson json

/-- `twitter::load_bearer_token` (src/twitter.rs lines 29-35). -/
def load_bearer_token (file : Option (List Char)) : Option String :=
  match load_tokens file with
  | some tokens => some tokens.access_token
  | none => none

end Twitter

namespace Mastodon

/-- `mastodon::TokenData` (src/mastodon.rs). -/
structure TokenData where
  access_token : String
deriving DecidableEq, Repr

/-- Model of `serde_json::to_string` on `mastodon::TokenData`. -/
def toJson (t : TokenData) : List Char :=
  "\x7b\"access_token\":\"".toList ++
    (escString t.access_token.toList ++ ('"' :: "\x7d".toList))

/-- Model of `serde_json::from_str::<mastodon::TokenData>` (`.ok()` applied). -/
def fromJson (s : List Char) : Option TokenData :=
  (dropLit "\x7b\"access_token\":\"".toList s).bind fun s1 =>
  (parseStr s1).bind fun p1 =>
  if p1.2 = "\x7d".toList then some ⟨String.mk p1.1⟩ else none

/-- `mastodon::save_tokens` (src/mastodon.rs lines 15-21): serialises the
record and writes it to `mastodon_tokens.json`, overwriting prior content; a
failed write panics through `.expect`. -/
def save_tokens (access_token : String) (writeOk : Bool)
    (fileBefore : Option (List Char)) : SaveOutcome :=
  if writeOk then SaveOutcome.ok (some (toJson ⟨access_token⟩))
  else SaveOutcome.panicked

/-- `mastodon::load_tokens` (src/mastodon.rs lines 23-30). -/
def load_tokens (file : Option (List Char)) : Option TokenData :=
  match file with
  | none => none
  | some json => fromJson json

end Mastodon

/-! ## Session State, events and network responses -/

/-- `posts::AppState` (src/posts.rs).  `#[derive(Default)]` gives `false`,
empty-string and `None` defaults.  The `linkedin_authorized` flag is read and
written throughout `src/main.rs` (lines 69-72, 217, 230-233, 297); the
`posts.rs` revision under `src/` predates that flag, so it is included here
because `main.rs` requires it. -/
structure AppState where
  twitter_authorized : Bool := false
  mastodon_authorized : Bool := false
  bluesky_authorized : Bool := false
  linkedin_authorized : Bool := false
  post_text : String := ""
  bluesky_token : Option String := none
  did : Option String := none
deriving DecidableEq, Repr

/-- `AppState::default()`. -/
def AppState.default : AppState := {}

/-- Observable actions of the authorization and post paths, recorded in order:
a post-creation request (with the bearer token it used), a token-refresh
request (with the refresh token it used), a full reauthorization request,
and a blocking read of an authorization code from stdin. -/
inductive Event where
  | createPost (bearer : String)
  | refreshCall (refreshToken : String)
  | reauthCall
  | stdinRead
deriving DecidableEq, Repr

/-- Is the event a post-creation attempt? -/
def isCreate : Event → Bool
  | .createPost _ => true
  | _ => false

/-- Is the event a token-refresh request? -/
def isRefresh : Event → Bool
  | .refreshCall _ => true
  | _ => false

/-- Is the event a full reauthorization request? -/
def isReauth : Event → Bool
  | .reauthCall => true
  | _ => false

/-- Classified response of a post-creation request (`createRecord`,
`/2/tweets`, `/api/v1/statuses`): HTTP success, HTTP 401, another
non-success status, or a transport error. -/
inductive PostResp where
  | success
  | unauthorized
  | otherFail
  | netErr
deriving DecidableEq, Repr

namespace Bluesky

/-- Response of a `com.atproto.server.createSession` or `refreshSession`
request: transport and HTTP success with a parsed body, HTTP success with an
unparsable body, a non-success HTTP status, or a transport error. -/
inductive SessionResp where
  | success (t : TokenData)
  | parseFail
  | httpFail
  | netErr
deriving DecidableEq, Repr

/-- `bluesky::refresh_access_token` (src/bluesky.rs lines 38-85): on
transport and HTTP success with a parsable body it saves the new tokens
(write assumed to succeed; a failed write panics, see `save_tokens`) and
returns them; in every other case it returns `none` and the file is
untouched. -/
def refresh_access_token (resp : SessionResp) (file : Option (List Char)) :
    Option TokenData × Option (List Char) :=
  match resp with
  | .success t =>
    match save_tokens t.access_jwt t.refresh_jwt t.did true file with
    | .ok f => (some t, f)
    | .panicked => (none, file)
  | _ => (none, file)

/-- `bluesky::reauthorize_bluesky` (src/bluesky.rs lines 130-163): a fresh
password-grant `createSession`; on success it saves the new tokens and
returns them, never touching the app state. -/
def reauthorize_bluesky (resp : SessionResp) (file : Option (List Char)) :
    Option TokenData × Option (List Char) :=
  match resp with
  | .success t =>
    match save_tokens t.access_jwt t.refresh_jwt t.did true file with
    | .ok f => (some t, f)
    | .panicked => (none, file)
  | _ => (none, file)

/-- `bluesky::authorize_bluesky` (src/bluesky.rs lines 87-128): on success it
saves the tokens, then sets `bluesky_token`, `did` and `bluesky_authorized`
on the shared state, and returns the tokens; otherwise nothing changes. -/
def authorize_bluesky (resp : SessionResp) (st : AppState)
    (file : Option (List Char)) : Option TokenData × AppState × Option (List Char) :=
  match resp with
  | .success t =>
    match save_tokens t.access_jwt t.refresh_jwt t.did true file with
    | .ok f =>
      (some t,
       { st with bluesky_token := some t.access_jwt, did := some t.did,
                 bluesky_authorized := true },
       f)
    | .panicked => (none, st, file)
  | _ => (none, st, file)

/-- Network environment of one `post_to_bluesky` call: the response to the
n-th `createRecord` attempt, to the n-th `refreshSession` call and to the
n-th reauthorization `createSession` call (all 0-based). -/
structure Env where
  post : Nat → PostResp
  refresh : Nat → SessionResp
  reauth : Nat → SessionResp

/-- Result of a `post_to_bluesky` call: the returned boolean, the final
content of `bluesky_tokens.json`, and the event trace. -/
structure Run where
  result : Bool
  file : Option (List Char)
  trace : List Event
deriving DecidableEq, Repr

/-- The `for _ in 0..2` loop of `bluesky::post_to_bluesky` (src/bluesky.rs
lines 187-243).  `fuel` is the number of loop iterations left,
`nPost`/`nRefresh`/`nReauth` count the endpoint calls made so far, and
`current_token` is the source's mutable token variable. -/
def postLoop (env : Env) : Nat → Nat → Nat → Nat → String →
    Option (List Char) → List Event → Run
  | 0, _, _, _, _, file, trace => ⟨false, file, trace⟩
  | fuel + 1, nPost, nRefresh, nReauth, current_token, file, trace =>
    let trace := trace ++ [Event.createPost current_token]
    match env.post nPost with
    | .success => ⟨true, file, trace⟩
    | .unauthorized =>
      match load_tokens file with
      | some tokens =>
        let trace := trace ++ [Event.refreshCall tokens.refresh_jwt]
        match refresh_access_token (env.refresh nRefresh) file with
        | (some new_tokens, file) =>
          postLoop env fuel (nPost + 1) (nRefresh + 1) nReauth
            new_tokens.access_jwt file trace
        | (none, file) =>
          let trace := trace ++ [Event.reauthCall]
          match reauthorize_bluesky (env.reauth nReauth) file with
          | (some new_tokens, file) =>
            postLoop env fuel (nPost + 1) (nRefresh + 1) (nReauth + 1)
              new_tokens.access_jwt file trace
          | (none, file) => ⟨false, file, trace⟩
      | none => ⟨false, file, trace⟩
    | .otherFail => ⟨false, file, trace⟩
    | .netErr => ⟨false, file, trace⟩

/-- `bluesky::post_to_bluesky` (src/bluesky.rs lines 165-247).  `text` and
`user_did` only form the request body; the classified response to each
attempt is supplied by `env`. -/
def post_to_bluesky (env : Env) (token text user_did : String)
    (file : Option (List Char)) : Run :=
  postLoop env 2 0 0 0 token file []

end Bluesky

namespace Twitter

/-- Response of a `POST /2/oauth2/token` refresh request. -/
inductive RefreshResp where
  | success (t : TokenData)
  | parseFail
  | httpFail
  | netErr
deriving DecidableEq, Repr

/-- Response of a `POST /2/oauth2/token` authorization-code exchange. -/
inductive AuthResp where
  | success (t : TokenData)
  | parseFail
  | httpFail
  | netErr
deriving DecidableEq, Repr

/-- `twitter::refresh_twitter_token` (src/twitter.rs lines 47-99): on
transport and HTTP success with a parsable body it saves the new tokens
(write assumed to succeed) and returns the new access token; otherwise
`none`, file untouched. -/
def refresh_twitter_token (resp : RefreshResp) (file : Option (List Char)) :
    Option String × Option (List Char) :=
  match resp with
  | .success t =>
    match save_tokens t.access_token t.refresh_token true file with
    | .ok f => (some t.access_token, f)
    | .panicked => (none, file)
  | _ => (none, file)

/-- `twitter::authorize_twitter` (src/twitter.rs lines 120-182): on success
it saves the tokens, sets `twitter_authorized` on the passed state and
returns the access token. -/
def authorize_twitter (resp : AuthResp) (st : AppState)
    (file : Option (List Char)) : Option String × AppState × Option (List Char) :=
  match resp with
  | .success t =>
    match save_tokens t.access_token t.refresh_token true file with
    | .ok f => (some t.access_token, { st with twitter_authorized := true }, f)
    | .panicked => (none, st, file)
  | _ => (none, st, file)

/-- `twitter::regenerate_twitter_token` (src/twitter.rs lines 184-207):
prints the authorization URL, then blocks reading an authorization code from
stdin (recorded as `Event.stdinRead`), then exchanges the code via
`authorize_twitter` called on a fresh throwaway `AppState::default()`. -/
def regenerate_twitter_token (resp : AuthResp) (file : Option (List Char)) :
    Option String × Option (List Char) × List Event :=
  match authorize_twitter resp AppState.default file with
  | (tok, _, f) => (tok, f, [Event.stdinRead])

/-- Result of a `post_to_twitter` call.  `outOfResponses` marks a run whose
recursion consumed the whole supplied response list without terminating: the
real function would issue yet another request there. -/
inductive Outcome where
  | done (success : Bool)
  | outOfResponses
deriving DecidableEq, Repr

/-- Result of a `post_to_twitter` call: outcome, final content of
`twitter_tokens.json`, and the event trace. -/
structure Run where
  outcome : Outcome
  file : Option (List Char)
  trace : List Event
deriving DecidableEq, Repr

/-- `twitter::post_to_twitter` (src/twitter.rs lines 209-258), its unbounded
`Box::pin(post_to_twitter(..))` recursion made structural on the list of
responses to the successive `/2/tweets` attempts.  `refreshR` and `reauthR`
give the responses to the n-th refresh call and to the n-th
reauthorization code exchange. -/
def go (refreshR : Nat → RefreshResp) (reauthR : Nat → AuthResp) :
    List PostResp → Nat → Nat → String → Option (List Char) → List Event → Run
  | [], _, _, _, file, trace => ⟨.outOfResponses, file, trace⟩
  | r :: rs, nRefresh, nReauth, token, file, trace =>
    let trace := trace ++ [Event.createPost token]
    match r with
    | .success => ⟨.done true, file, trace⟩
    | .otherFail => ⟨.done false, file, trace⟩
    | .netErr => ⟨.done false, file, trace⟩
    | .unauthorized =>
      match (load_tokens file).bind TokenData.refresh_token with
      | some refresh_token =>
        let trace := trace ++ [Event.refreshCall refresh_token]
        match refresh_twitter_token (refreshR nRefresh) file with
        | (some new_token, file) =>
          go refreshR reauthR rs (nRefresh + 1) nReauth new_token file trace
        | (none, file) =>
          let trace := trace ++ [Event.reauthCall]
          match regenerate_twitter_token (reauthR nReauth) file with
          | (some new_token, file, evs) =>
            go refreshR reauthR rs (nRefresh + 1) (nReauth + 1) new_token file
              (trace ++ evs)
          | (none, file, evs) => ⟨.done false, file, trace ++ evs⟩
      | none =>
        let trace := trace ++ [Event.reauthCall]
        match regenerate_twitter_token (reauthR nReauth) file with
        | (some new_token, file, evs) =>
          go refreshR reauthR rs nRefresh (nReauth + 1) new_token file
            (trace ++ evs)
        | (none, file, evs) => ⟨.done false, file, trace ++ evs⟩

/-- Entry point of the model of `twitter::post_to_twitter`: first attempt
with the given bearer token, empty trace. -/
def post_to_twitter (postResps : List PostResp) (refreshR : Nat → RefreshResp)
    (reauthR : Nat → AuthResp) (token text : String)
    (file : Option (List Char)) : Run :=
  go refreshR reauthR postResps 0 0 token file []

end Twitter

namespace Mastodon

/-- Response of the `{instance}/oauth/token` code exchange. -/
inductive AuthResp where
  | success (access_token : String)
  | parseFail
  | httpFail
  | netErr
deriving DecidableEq, Repr

/-- `mastodon::authorize_mastodon` (src/mastodon.rs lines 41-92): returns the
access token on transport and HTTP success with a parsable body, else
`none`; it does not itself persist anything or touch the app state. -/
def authorize_mastodon (resp : AuthResp) : Option String :=
  match resp with
  | .success access_token => some access_token
  | _ => none

/-- `mastodon::post_to_mastodon` (src/mastodon.rs lines 95-129): a single
`/api/v1/statuses` request, true exactly on HTTP success; no retry of any
kind. -/
def post_to_mastodon (resp : PostResp) : Bool :=
  match resp with
  | .success => true
  | _ => false

end Mastodon

/-! ## main.rs: startup, authorization callbacks and the Broadcast Coordinator -/

/-- The synchronous Bluesky part of `PostApp::new` (src/main.rs lines 33-37):
if a stored record loads from `bluesky_tokens.json`, hold its access token
and DID in the session and assume authorized.  (The asynchronous validation
task spawned on lines 39-60 runs on its own schedule and is outside this
sequential model.) -/
def initBlueskyState (file : Option (List Char)) (st : AppState) : AppState :=
  match Bluesky.load_tokens file with
  | some tokens =>
    { st with bluesky_token := some tokens.access_jwt, did := some tokens.did,
              bluesky_authorized := true }
  | none => st

/-- The Mastodon authorize callback of `PostApp::update` (src/main.rs lines
186-207): after the interactive code entry, `authorize_mastodon`; on success
the token is saved (write assumed to succeed) and `mastodon_authorized` is
set; on failure neither the state nor the file changes. -/
def mastodonAuthCallback (resp : Mastodon.AuthResp) (st : AppState)
    (file : Option (List Char)) : AppState × Option (List Char) :=
  match Mastodon.authorize_mastodon resp with
  | some access_token =>
    match Mastodon.save_tokens access_token true file with
    | .ok f => ({ st with mastodon_authorized := true }, f)
    | .panicked => (st, file)
  | none => (st, file)

/-- The `platform_checkboxes` selection. -/
structure Selected where
  twitter : Bool
  bluesky : Bool
  mastodon : Bool
  linkedin : Bool
deriving DecidableEq, Repr

/-- The per-platform token files (`twitter_tokens.json`,
`bluesky_tokens.json`, `mastodon_tokens.json`). -/
structure Files where
  twitterFile : Option (List Char)
  blueskyFile : Option (List Char)
  mastodonFile : Option (List Char)
deriving DecidableEq, Repr

/-- Modelled from the spec: `linkedin.rs` is not under `src/`.  Per the spec
(sections 2 and 6) LinkedIn persists its own token file and is reauth-only;
`main.rs` (lines 297-305) calls `linkedin::load_bearer_token()` and
`linkedin::post_to_linkedin(token, text)`, so the loaded bearer token and
the post outcome are supplied as environment inputs. -/
structure LinkedinEnv where
  bearer : Option String
  postOk : Bool
deriving DecidableEq, Repr

/-- Network environment for one press of the Post button. -/
structure BroadcastEnv where
  twPosts : List PostResp
  twRefresh : Nat → Twitter.RefreshResp
  twReauth : Nat → Twitter.AuthResp
  bsky : Bluesky.Env
  mastoPost : PostResp
  linkedin : LinkedinEnv

/-- Per-platform outcomes of one broadcast; `none` means the platform was
skipped (not selected, not authorized, or its token was unavailable). -/
structure BroadcastResult where
  twitterOutcome : Option Twitter.Run
  blueskyOutcome : Option Bluesky.Run
  mastodonOutcome : Option Bool
  linkedinOutcome : Option Bool
  state : AppState
  files : Files

/-- The Post button handler of `PostApp::update` (src/main.rs lines 260-308):
with the state locked, take the message text; for each of Twitter, Bluesky,
Mastodon, LinkedIn in order, if it is selected and authorized and its token
is available, run its post call; afterwards clear `post_text`
unconditionally.  No authorization flag is touched. -/
def postButtonHandler (sel : Selected) (env : BroadcastEnv) (st : AppState)
    (fs : Files) : BroadcastResult :=
  let text := st.post_text
  let twitterOutcome :=
    if sel.twitter && st.twitter_authorized then
      match Twitter.load_bearer_token fs.twitterFile with
      | some bearer_token =>
        some (Twitter.post_to_twitter env.twPosts env.twRefresh env.twReauth
          bearer_token text fs.twitterFile)
      | none => none
    else none
  let fs1 : Files :=
    { fs with twitterFile := match twitterOutcome with
        | some r => r.file
        | none => fs.twitterFile }
  let blueskyOutcome :=
    if sel.bluesky && st.bluesky_authorized then
      match st.bluesky_token, st.did with
      | some token, some user_did =>
        some (Bluesky.post_to_bluesky env.bsky token text user_did fs1.blueskyFile)
      | _, _ => none
    else none
  let fs2 : Files :=
    { fs1 with blueskyFile := match blueskyOutcome with
        | some r => r.file
        | none => fs1.blueskyFile }
  let mastodonOutcome :=
    if sel.mastodon && st.mastodon_authorized then
      match Mastodon.load_tokens fs2.mastodonFile with
      | some token_data => some (Mastodon.post_to_mastodon env.mastoPost)
      | none => none
    else none
  let linkedinOutcome :=
    if sel.linkedin && st.linkedin_authorized then
      match env.linkedin.bearer with
      | some _ => some env.linkedin.postOk
      | none => none
    else none
  { twitterOutcome := twitterOutcome
    blueskyOutcome := blueskyOutcome
    mastodonOutcome := mastodonOutcome
    linkedinOutcome := linkedinOutcome
    state := { st with post_text := "" }
    files := fs2 }


/-! ## Concrete scenarios used by counterexamples and witnesses -/

/-- A stored Twitter record holding a refresh token. -/
def twStoredFile : Option (List Char) := some (Twitter.toJson ⟨"T", some "RT"⟩)

/-- Twitter refresh responses that keep succeeding with fresh token pairs. -/
def twRefreshAlwaysOk : Nat → Twitter.RefreshResp := fun n =>
  if n = 0 then Twitter.RefreshResp.success ⟨"T2", some "RT2"⟩
  else Twitter.RefreshResp.success ⟨"T3", some "RT3"⟩

/-- Twitter reauthorization code exchanges that are always rejected. -/
def twReauthFail : Nat → Twitter.AuthResp := fun _ => Twitter.AuthResp.httpFail

/-- Twitter reauthorization code exchange that succeeds with a fresh token. -/
def twReauthOk : Nat → Twitter.AuthResp := fun _ =>
  Twitter.AuthResp.success ⟨"T9", none⟩

/-- A Bluesky environment in which every request is rejected: posts with
HTTP 401, refreshes and reauthorizations with another non-success status. -/
def bskyEnvC10 : Bluesky.Env :=
  ⟨fun _ => PostResp.unauthorized, fun _ => Bluesky.SessionResp.httpFail,
   fun _ => Bluesky.SessionResp.httpFail⟩

/-- Only the Bluesky checkbox is selected. -/
def selBlueskyOnly : Selected := ⟨false, true, false, false⟩

/-- Session state holding an authorized Bluesky session with token "A". -/
def c2State : AppState :=
  { bluesky_authorized := true, bluesky_token := some "A", did := some "d",
    post_text := "hi" }

/-- Token files in which only the Bluesky record (access "A", refresh "R")
exists. -/
def c2Files : Files := ⟨none, some (Bluesky.toJson ⟨"A", "R", "d"⟩), none⟩

/-- Bluesky environment: first `createRecord` is rejected with 401, the
refresh succeeds with a new token pair ("A2", "R2"), later attempts
succeed. -/
def bskyEnvRefreshOk : Bluesky.Env :=
  ⟨fun n => if n = 0 then PostResp.unauthorized else PostResp.success,
   fun _ => Bluesky.SessionResp.success ⟨"A2", "R2", "d"⟩,
   fun _ => Bluesky.SessionResp.httpFail⟩

/-- Broadcast environment wrapping `bskyEnvRefreshOk`. -/
def c2Env : BroadcastEnv :=
  ⟨[], fun _ => Twitter.RefreshResp.httpFail, fun _ => Twitter.AuthResp.httpFail,
   bskyEnvRefreshOk, PostResp.success, ⟨none, false⟩⟩

/-- A session state with Twitter, Mastodon and Bluesky authorized. -/
def c8State : AppState :=
  { twitter_authorized := true, mastodon_authorized := true,
    bluesky_authorized := true, bluesky_token := some "A", did := some "d",
    post_text := "hello" }

/-- Stored token records for Twitter, Bluesky and Mastodon. -/
def c8Files : Files :=
  ⟨some (Twitter.toJson ⟨"T", some "RT"⟩), some (Bluesky.toJson ⟨"A", "R", "d"⟩),
   some (Mastodon.toJson ⟨"M"⟩)⟩

/-- All four checkboxes selected. -/
def c8SelAll : Selected := ⟨true, true, true, true⟩

/-- Broadcast environment where the Twitter post is rejected for a non-auth
reason and everything else succeeds. -/
def c8EnvA : BroadcastEnv :=
  ⟨[PostResp.otherFail], fun _ => Twitter.RefreshResp.httpFail,
   fun _ => Twitter.AuthResp.httpFail,
   ⟨fun _ => PostResp.success, fun _ => Bluesky.SessionResp.httpFail,
    fun _ => Bluesky.SessionResp.httpFail⟩,
   PostResp.success, ⟨none, false⟩⟩

/-- Same as `c8EnvA` except that the Twitter post succeeds. -/
def c8EnvB : BroadcastEnv :=
  ⟨[PostResp.success], fun _ => Twitter.RefreshResp.httpFail,
   fun _ => Twitter.AuthResp.httpFail,
   ⟨fun _ => PostResp.success, fun _ => Bluesky.SessionResp.httpFail,
    fun _ => Bluesky.SessionResp.httpFail⟩,
   PostResp.success, ⟨none, false⟩⟩

/-- Invariant stated by the spec: whenever the Bluesky authorized flag is
set, the held access token is a non-empty string. -/
def blueskyTokenInv (st : AppState) : Prop :=
  st.bluesky_authorized = true → ∃ t, st.bluesky_token = some t ∧ t ≠ ""

/-! ## Theorems -/

theorem dropLit_append (l s : List Char) : dropLit l (l ++ s) = some s := by
  induction l with
  | nil => rfl
  | cons c cs ih => simp [dropLit, ih]

theorem parseStr_escString (s rest : List Char) :
    parseStr (escString s ++ ('"' :: rest)) = some (s, rest) := by
  induction s with
  | nil =>
    rw [escString, List.nil_append, parseStr.eq_def]
    simp
  | cons c tl ih =>
    by_cases h : c = '"' ∨ c = '\\'
    · simp only [escString, escChar, if_pos h, List.cons_append, List.nil_append]
      rw [parseStr.eq_def]
      simp [ih]
    · push_neg at h
      simp only [escString, escChar, if_neg (by tauto), List.cons_append, List.nil_append]
      rw [parseStr.eq_def]
      simp [ih, h.1, h.2]

theorem string_mk_data (s : String) : String.mk s.data = s := rfl

theorem bskyFromJson_toJson (t : Bluesky.TokenData) :
    Bluesky.fromJson (Bluesky.toJson t) = some t := by
  simp [Bluesky.fromJson, Bluesky.toJson, dropLit, parseStr_escString, string_mk_data, Option.bind]

theorem twFromJson_toJson (t : Twitter.TokenData) :
    Twitter.fromJson (Twitter.toJson t) = some t := by
  cases t with
  | mk a rt =>
    cases rt with
    | none =>
      simp [Twitter.fromJson, Twitter.toJson, dropLit, parseStr_escString, string_mk_data, Option.bind]
    | some r =>
      simp [Twitter.fromJson, Twitter.toJson, dropLit, parseStr_escString, string_mk_data, Option.bind]

theorem mastoFromJson_toJson (t : Mastodon.TokenData) :
    Mastodon.fromJson (Mastodon.toJson t) = some t := by
  simp [Mastodon.fromJson, Mastodon.toJson, dropLit, parseStr_escString, string_mk_data, Option.bind]

/-! ## Trace lemmas about the two resilient post loops -/

/-- Each iteration of the Bluesky loop makes exactly one `createRecord`
attempt, so the attempts are bounded by the remaining fuel. -/
theorem bskyLoop_countCreate_le (env : Bluesky.Env) (fuel : Nat) :
    ∀ (nPost nRefresh nReauth : Nat) (tok : String) (file : Option (List Char))
      (trace : List Event),
      ((Bluesky.postLoop env fuel nPost nRefresh nReauth tok file trace).trace).countP isCreate ≤
        trace.countP isCreate + fuel := by
  induction fuel with
  | zero =>
    intro nPost nRefresh nReauth tok file trace
    simp [Bluesky.postLoop]
  | succ n ih =>
    intro nPost nRefresh nReauth tok file trace
    simp only [Bluesky.postLoop]
    split
    · simp [List.countP_append, isCreate]
    · split
      · split
        · apply le_trans (ih _ _ _ _ _ _)
          simp [List.countP_append, List.countP_cons, List.countP_nil, isCreate]
          omega
        · split
          · apply le_trans (ih _ _ _ _ _ _)
            simp [List.countP_append, List.countP_cons, List.countP_nil, isCreate]
            omega
          · simp [List.countP_append, List.countP_cons, List.countP_nil, isCreate]
      · simp [List.countP_append, List.countP_cons, List.countP_nil, isCreate]
    · simp [List.countP_append, isCreate]
    · simp [List.countP_append, isCreate]

/-- The Bluesky post path never reads from stdin. -/
theorem bskyLoop_no_stdin (env : Bluesky.Env) (fuel : Nat) :
    ∀ (nPost nRefresh nReauth : Nat) (tok : String) (file : Option (List Char))
      (trace : List Event), Event.stdinRead ∉ trace →
      Event.stdinRead ∉ (Bluesky.postLoop env fuel nPost nRefresh nReauth tok file trace).trace := by
  induction fuel with
  | zero =>
    intro nPost nRefresh nReauth tok file trace h
    simpa [Bluesky.postLoop] using h
  | succ n ih =>
    intro nPost nRefresh nReauth tok file trace h
    simp only [Bluesky.postLoop]
    split
    · simp [List.mem_append, h]
    · split
      · split
        · apply ih
          simp [List.mem_append, h]
        · split
          · apply ih
            simp [List.mem_append, h]
          · simp [List.mem_append, h]
      · simp [List.mem_append, h]
    · simp [List.mem_append, h]
    · simp [List.mem_append, h]

/-- Every reauthorization in a Bluesky run is preceded by a refresh attempt
in the same iteration: the reauthorization count never exceeds the refresh
count. -/
theorem bskyLoop_reauth_le_refresh (env : Bluesky.Env) (fuel : Nat) :
    ∀ (nPost nRefresh nReauth : Nat) (tok : String) (file : Option (List Char))
      (trace : List Event),
      ((Bluesky.postLoop env fuel nPost nRefresh nReauth tok file trace).trace).countP isReauth +
          trace.countP isRefresh ≤
        ((Bluesky.postLoop env fuel nPost nRefresh nReauth tok file trace).trace).countP isRefresh +
          trace.countP isReauth := by
  induction fuel with
  | zero =>
    intro nPost nRefresh nReauth tok file trace
    simp [Bluesky.postLoop]
    omega
  | succ n ih =>
    intro nPost nRefresh nReauth tok file trace
    simp only [Bluesky.postLoop]
    split
    · simp [List.countP_append, List.countP_cons, List.countP_nil, isReauth, isRefresh]
      omega
    · split
      · rename_i xl tokens hload
        split
        · rename_i xr new_tokens file2 hrefresh
          have h := ih (nPost + 1) (nRefresh + 1) nReauth new_tokens.access_jwt file2
            (trace ++ [Event.createPost tok] ++ [Event.refreshCall tokens.refresh_jwt])
          simp [List.countP_append, List.countP_cons, List.countP_nil, isReauth, isRefresh] at h ⊢
          omega
        · rename_i xr file1 hrefresh
          split
          · rename_i xq new_tokens file2 hreauth
            have h := ih (nPost + 1) (nRefresh + 1) (nReauth + 1) new_tokens.access_jwt file2
              (trace ++ [Event.createPost tok] ++ [Event.refreshCall tokens.refresh_jwt] ++ [Event.reauthCall])
            simp [List.countP_append, List.countP_cons, List.countP_nil, isReauth, isRefresh] at h ⊢
            omega
          · simp [List.countP_append, List.countP_cons, List.countP_nil, isReauth, isRefresh]
            omega
      · simp [List.countP_append, List.countP_cons, List.countP_nil, isReauth, isRefresh]
        omega
    · simp [List.countP_append, List.countP_cons, List.countP_nil, isReauth, isRefresh]
      omega
    · simp [List.countP_append, List.countP_cons, List.countP_nil, isReauth, isRefresh]
      omega

/-- `regenerate_twitter_token` always performs exactly one blocking stdin
read, whatever the outcome of the code exchange. -/
theorem twRegen_reads_stdin (resp : Twitter.AuthResp) (file : Option (List Char)) :
    (Twitter.regenerate_twitter_token resp file).2.2 = [Event.stdinRead] := by
  cases resp <;> rfl

/-- Events already in the trace stay in the trace of a Twitter run. -/
theorem twGo_trace_mem_mono (refreshR : Nat → Twitter.RefreshResp)
    (reauthR : Nat → Twitter.AuthResp) (e : Event) (rs : List PostResp) :
    ∀ (nRefresh nReauth : Nat) (tok : String) (file : Option (List Char))
      (trace : List Event), e ∈ trace →
      e ∈ (Twitter.go refreshR reauthR rs nRefresh nReauth tok file trace).trace := by
  induction rs with
  | nil =>
    intro nRefresh nReauth tok file trace h
    simpa [Twitter.go] using h
  | cons r rs ih =>
    intro nRefresh nReauth tok file trace h
    simp only [Twitter.go]
    split
    · simp [List.mem_append, h]
    · simp [List.mem_append, h]
    · simp [List.mem_append, h]
    · split
      · split
        · apply ih
          simp [List.mem_append, h]
        · split
          · apply ih
            simp [List.mem_append, h]
          · simp [List.mem_append, h]
      · split
        · apply ih
          simp [List.mem_append, h]
        · simp [List.mem_append, h]
/-- C1 counterexample: the claim "at most two createPost attempts are made in
total" is false for `twitter::post_to_twitter`.  With a stored refresh token
and a server whose refresh endpoint keeps succeeding while `/2/tweets` keeps
answering 401, the recursive retry makes three `createPost` attempts. -/
theorem C1_counterexample_twitter_three_attempts :
    ((Twitter.post_to_twitter [PostResp.unauthorized, PostResp.unauthorized, PostResp.success]
        twRefreshAlwaysOk twReauthFail "T" "hi" twStoredFile).trace).countP isCreate = 3 ∧
    ¬ (((Twitter.post_to_twitter [PostResp.unauthorized, PostResp.unauthorized, PostResp.success]
        twRefreshAlwaysOk twReauthFail "T" "hi" twStoredFile).trace).countP isCreate ≤ 2) := by
  decide

/-- C1 (amended): `bluesky::post_to_bluesky` makes at most two `createPost`
attempts per call, whatever the network does; Twitter's recursion instead
retries once per successful token renewal (see the counterexample). -/
theorem C1_bluesky_at_most_two_attempts (env : Bluesky.Env)
    (token text user_did : String) (file : Option (List Char)) :
    ((Bluesky.post_to_bluesky env token text user_did file).trace).countP isCreate ≤ 2 := by
  simpa [Bluesky.post_to_bluesky] using bskyLoop_countCreate_le env 2 0 0 0 token file []

/-- C2 counterexample: after a 401 followed by a successful refresh, the new
record is persisted to the token file and the retried post succeeds, but the
Session State still holds the stale access token "A", not the refreshed
"A2" — the post path never updates the shared state. -/
theorem C2_counterexample_session_state_not_updated :
    (postButtonHandler selBlueskyOnly c2Env c2State c2Files).files.blueskyFile =
        some (Bluesky.toJson ⟨"A2", "R2", "d"⟩) ∧
    (postButtonHandler selBlueskyOnly c2Env c2State c2Files).blueskyOutcome =
        some ⟨true, some (Bluesky.toJson ⟨"A2", "R2", "d"⟩),
          [Event.createPost "A", Event.refreshCall "R", Event.createPost "A2"]⟩ ∧
    (postButtonHandler selBlueskyOnly c2Env c2State c2Files).state.bluesky_token = some "A" ∧
    (postButtonHandler selBlueskyOnly c2Env c2State c2Files).state.bluesky_token ≠ some "A2" := by
  refine ⟨by decide, by decide, by decide, by decide⟩

/-- C2 (amended): for a Bluesky post call whose first `createPost` returns
Unauthorized while a stored record exists, the executor calls refresh with
the stored refresh token; if refresh succeeds, the new record is persisted
and `createPost` is retried exactly once more with the new access token
(two attempts in total), and if that retry succeeds the call returns true —
but the Session State is not updated by the post path. -/
theorem C2_bluesky_refresh_persists_and_retries_once :
    (∀ (env : Bluesky.Env) (token text user_did : String) (file : Option (List Char))
       (td newT : Bluesky.TokenData),
      env.post 0 = PostResp.unauthorized →
      Bluesky.load_tokens file = some td →
      env.refresh 0 = Bluesky.SessionResp.success newT →
      env.post 1 = PostResp.success →
      Bluesky.post_to_bluesky env token text user_did file =
        ⟨true, some (Bluesky.toJson newT),
         [Event.createPost token, Event.refreshCall td.refresh_jwt,
          Event.createPost newT.access_jwt]⟩) ∧
    (∀ (env : Bluesky.Env) (token text user_did : String) (file : Option (List Char))
       (td newT : Bluesky.TokenData),
      env.post 0 = PostResp.unauthorized →
      Bluesky.load_tokens file = some td →
      env.refresh 0 = Bluesky.SessionResp.success newT →
      ((Bluesky.post_to_bluesky env token text user_did file).trace).countP isCreate = 2) := by
  constructor
  · intro env token text user_did file td newT h0 hload href h1
    simp [Bluesky.post_to_bluesky, Bluesky.postLoop, h0, hload, href, h1,
      Bluesky.refresh_access_token, Bluesky.save_tokens]
  · intro env token text user_did file td newT h0 hload href
    simp only [Bluesky.post_to_bluesky, Bluesky.postLoop, h0, hload, href,
      Bluesky.refresh_access_token, Bluesky.save_tokens, if_true]
    split
    · simp [List.countP_append, List.countP_cons, List.countP_nil, isCreate]
    · split
      · split
        · simp [Bluesky.postLoop, List.countP_append, List.countP_cons, List.countP_nil, isCreate]
        · split
          · simp [Bluesky.postLoop, List.countP_append, List.countP_cons, List.countP_nil, isCreate]
          · simp [List.countP_append, List.countP_cons, List.countP_nil, isCreate]
      · simp [List.countP_append, List.countP_cons, List.countP_nil, isCreate]
    · simp [List.countP_append, List.countP_cons, List.countP_nil, isCreate]
    · simp [List.countP_append, List.countP_cons, List.countP_nil, isCreate]

/-- C2 witness: the amended statement at the concrete refresh-success
scenario: stored record ("A","R","d"), first post 401, refresh returns
("A2","R2","d"), retried post succeeds. -/
theorem C2_witness :
    Bluesky.post_to_bluesky bskyEnvRefreshOk "A" "hi" "d"
        (some (Bluesky.toJson ⟨"A", "R", "d"⟩)) =
      ⟨true, some (Bluesky.toJson ⟨"A2", "R2", "d"⟩),
       [Event.createPost "A", Event.refreshCall "R", Event.createPost "A2"]⟩ ∧
    ((Bluesky.post_to_bluesky bskyEnvRefreshOk "A" "hi" "d"
        (some (Bluesky.toJson ⟨"A", "R", "d"⟩))).trace).countP isCreate = 2 :=
  ⟨C2_bluesky_refresh_persists_and_retries_once.1 bskyEnvRefreshOk "A" "hi" "d" _
     ⟨"A", "R", "d"⟩ ⟨"A2", "R2", "d"⟩ rfl (by decide) rfl rfl,
   C2_bluesky_refresh_persists_and_retries_once.2 bskyEnvRefreshOk "A" "hi" "d" _
     ⟨"A", "R", "d"⟩ ⟨"A2", "R2", "d"⟩ rfl (by decide) rfl⟩

/-- C3 counterexample: the claim "the executor never blocks waiting for user
input inside the post path" is false for Twitter: a 401 with no stored
refresh token drives `post_to_twitter` into `regenerate_twitter_token`,
which reads an authorization code from stdin — the run's trace contains the
blocking read (and no `InteractionRequired` error exists anywhere). -/
theorem C3_counterexample_twitter_blocks_on_stdin :
    Event.stdinRead ∈ (Twitter.post_to_twitter [PostResp.unauthorized, PostResp.success]
      (fun _ => Twitter.RefreshResp.httpFail) twReauthOk "T" "hi" none).trace := by
  decide

/-- C3 (amended): the Bluesky post path never reads user input (its
password-grant reauthorization is unattended), while the Twitter post path
blocks on a stdin read whenever a 401 is not recoverable by a stored
refresh token; no distinct InteractionRequired error is surfaced. -/
theorem C3_only_bluesky_reauthorizes_unattended :
    (∀ (env : Bluesky.Env) (token text user_did : String) (file : Option (List Char)),
      Event.stdinRead ∉ (Bluesky.post_to_bluesky env token text user_did file).trace) ∧
    (∀ (postResps : List PostResp) (refreshR : Nat → Twitter.RefreshResp)
       (reauthR : Nat → Twitter.AuthResp) (token text : String) (file : Option (List Char)),
      postResps.head? = some PostResp.unauthorized →
      (Twitter.load_tokens file).bind Twitter.TokenData.refresh_token = none →
      Event.stdinRead ∈ (Twitter.post_to_twitter postResps refreshR reauthR token text file).trace) := by
  constructor
  · intro env token text user_did file
    exact bskyLoop_no_stdin env 2 0 0 0 token file [] (by simp)
  · intro postResps refreshR reauthR token text file hhead hrt
    cases postResps with
    | nil => simp at hhead
    | cons r rs =>
      obtain rfl : r = PostResp.unauthorized := by simpa using hhead
      simp only [Twitter.post_to_twitter, Twitter.go]
      rw [hrt]
      rcases hreg : Twitter.regenerate_twitter_token (reauthR 0) file with ⟨o, f2, evs⟩
      have hevs := twRegen_reads_stdin (reauthR 0) file
      rw [hreg] at hevs
      simp only at hevs
      subst hevs
      cases o with
      | some newTok =>
        show Event.stdinRead ∈ (Twitter.go refreshR reauthR rs 0 1 newTok f2
          [Event.createPost token, Event.reauthCall, Event.stdinRead]).trace
        apply twGo_trace_mem_mono
        simp
      | none =>
        show Event.stdinRead ∈ [Event.createPost token, Event.reauthCall, Event.stdinRead]
        simp

/-- C3 witness: the amended statement at concrete inputs — a Bluesky run
whose every request is rejected never reads stdin, a Twitter run hitting a
401 without a stored refresh token does. -/
theorem C3_witness :
    Event.stdinRead ∉ (Bluesky.post_to_bluesky bskyEnvC10 "A" "hi" "did:plc:x" none).trace ∧
    Event.stdinRead ∈ (Twitter.post_to_twitter [PostResp.unauthorized]
      (fun _ => Twitter.RefreshResp.httpFail) twReauthFail "T" "hi" none).trace :=
  ⟨C3_only_bluesky_reauthorizes_unattended.1 bskyEnvC10 "A" "hi" "did:plc:x" none,
   C3_only_bluesky_reauthorizes_unattended.2 [PostResp.unauthorized]
     (fun _ => Twitter.RefreshResp.httpFail) twReauthFail "T" "hi" none rfl rfl⟩

/-- C4: for every platform, `load_tokens` after a successful
`save_tokens(record)` returns exactly that record — the serialise/parse
round trip through the platform's JSON file is the identity. -/
theorem C4_save_then_load_roundtrip :
    (∀ (a r d : String) (f0 f1 : Option (List Char)),
      Bluesky.save_tokens a r d true f0 = SaveOutcome.ok f1 →
      Bluesky.load_tokens f1 = some ⟨a, r, d⟩) ∧
    (∀ (a : String) (rt : Option String) (f0 f1 : Option (List Char)),
      Twitter.save_tokens a rt true f0 = SaveOutcome.ok f1 →
      Twitter.load_tokens f1 = some ⟨a, rt⟩) ∧
    (∀ (a : String) (f0 f1 : Option (List Char)),
      Mastodon.save_tokens a true f0 = SaveOutcome.ok f1 →
      Mastodon.load_tokens f1 = some ⟨a⟩) := by
  refine ⟨?_, ?_, ?_⟩
  · intro a r d f0 f1 h
    simp only [Bluesky.save_tokens, if_true, SaveOutcome.ok.injEq] at h
    subst h
    simp [Bluesky.load_tokens, bskyFromJson_toJson]
  · intro a rt f0 f1 h
    simp only [Twitter.save_tokens, if_true, SaveOutcome.ok.injEq] at h
    subst h
    simp [Twitter.load_tokens, twFromJson_toJson]
  · intro a f0 f1 h
    simp only [Mastodon.save_tokens, if_true, SaveOutcome.ok.injEq] at h
    subst h
    simp [Mastodon.load_tokens, mastoFromJson_toJson]

/-- C4 witness: the round trip at concrete records for each platform. -/
theorem C4_witness :
    Bluesky.load_tokens (some (Bluesky.toJson ⟨"a", "r", "d"⟩)) = some ⟨"a", "r", "d"⟩ ∧
    Twitter.load_tokens (some (Twitter.toJson ⟨"a", some "r"⟩)) = some ⟨"a", some "r"⟩ ∧
    Mastodon.load_tokens (some (Mastodon.toJson ⟨"a"⟩)) = some ⟨"a"⟩ :=
  ⟨C4_save_then_load_roundtrip.1 "a" "r" "d" none _ rfl,
   C4_save_then_load_roundtrip.2.1 "a" (some "r") none _ rfl,
   C4_save_then_load_roundtrip.2.2 "a" none _ rfl⟩

/-- C5: when the Mastodon token exchange fails (non-success HTTP status,
e.g. 400, transport error, or unparsable body), the authorize callback
leaves the session state and the token file exactly unchanged: the
authorized flag stays false and nothing is persisted. -/
theorem C5_mastodon_exchange_failure_leaves_state_unchanged :
    ∀ (resp : Mastodon.AuthResp) (st : AppState) (file : Option (List Char)),
      (∀ t, resp ≠ Mastodon.AuthResp.success t) →
      mastodonAuthCallback resp st file = (st, file) := by
  intro resp st file h
  cases resp with
  | success t => exact absurd rfl (h t)
  | parseFail => rfl
  | httpFail => rfl
  | netErr => rfl

/-- C5 witness: an HTTP 400 on the token exchange, starting from the default
(unauthorized) state with no stored file, changes nothing. -/
theorem C5_witness :
    mastodonAuthCallback Mastodon.AuthResp.httpFail AppState.default none =
      (AppState.default, none) :=
  C5_mastodon_exchange_failure_leaves_state_unchanged Mastodon.AuthResp.httpFail
    AppState.default none (fun t h => Mastodon.AuthResp.noConfusion h)

/-- C6: for every platform, `load_tokens` returns the stored record when the
file exists and parses under the record schema, and returns `none` (never an
error) when the file is missing or its content does not parse — a missing or
corrupt file is indistinguishable from "never authorized". -/
theorem C6_load_missing_or_corrupt_is_absent :
    (Bluesky.load_tokens none = none ∧ Twitter.load_tokens none = none ∧
      Mastodon.load_tokens none = none) ∧
    (∀ s, Bluesky.fromJson s = none → Bluesky.load_tokens (some s) = none) ∧
    (∀ s, Twitter.fromJson s = none → Twitter.load_tokens (some s) = none) ∧
    (∀ s, Mastodon.fromJson s = none → Mastodon.load_tokens (some s) = none) ∧
    (∀ t, Bluesky.load_tokens (some (Bluesky.toJson t)) = some t) ∧
    (∀ t, Twitter.load_tokens (some (Twitter.toJson t)) = some t) ∧
    (∀ t, Mastodon.load_tokens (some (Mastodon.toJson t)) = some t) := by
  refine ⟨⟨rfl, rfl, rfl⟩, ?_, ?_, ?_, ?_, ?_, ?_⟩
  · intro s h; simpa [Bluesky.load_tokens] using h
  · intro s h; simpa [Twitter.load_tokens] using h
  · intro s h; simpa [Mastodon.load_tokens] using h
  · intro t; simp [Bluesky.load_tokens, bskyFromJson_toJson]
  · intro t; simp [Twitter.load_tokens, twFromJson_toJson]
  · intro t; simp [Mastodon.load_tokens, mastoFromJson_toJson]

/-- C6 witness: a file holding the non-JSON content "oops" loads as absent on
every platform. -/
theorem C6_witness :
    Bluesky.load_tokens (some "oops".toList) = none ∧
    Twitter.load_tokens (some "oops".toList) = none ∧
    Mastodon.load_tokens (some "oops".toList) = none :=
  ⟨C6_load_missing_or_corrupt_is_absent.2.1 "oops".toList (by decide),
   C6_load_missing_or_corrupt_is_absent.2.2.1 "oops".toList (by decide),
   C6_load_missing_or_corrupt_is_absent.2.2.2.1 "oops".toList (by decide)⟩

/-- C7 counterexample: the claim that a failing filesystem write is surfaced
to the caller as a StorageError is false: on a failing write, `save_tokens`
of every platform panics through `.expect` — no error value reaches the
caller. -/
theorem C7_counterexample_save_panics_on_write_failure :
    Bluesky.save_tokens "a" "r" "d" false none = SaveOutcome.panicked ∧
    Twitter.save_tokens "a" (some "r") false none = SaveOutcome.panicked ∧
    Mastodon.save_tokens "a" false none = SaveOutcome.panicked :=
  ⟨rfl, rfl, rfl⟩

/-- C7 (amended): for every platform, a successful `save_tokens` writes the
serialised record to the platform's file, overwriting any prior content
(the result does not depend on what the file held before); a failing write
makes `save_tokens` panic via `.expect` instead of surfacing a StorageError,
and nothing is retried. -/
theorem C7_save_overwrites_or_panics :
    (∀ (a r d : String) (f0 : Option (List Char)),
      Bluesky.save_tokens a r d true f0 =
          SaveOutcome.ok (some (Bluesky.toJson ⟨a, r, d⟩)) ∧
      Bluesky.save_tokens a r d false f0 = SaveOutcome.panicked) ∧
    (∀ (a : String) (rt : Option String) (f0 : Option (List Char)),
      Twitter.save_tokens a rt true f0 =
          SaveOutcome.ok (some (Twitter.toJson ⟨a, rt⟩)) ∧
      Twitter.save_tokens a rt false f0 = SaveOutcome.panicked) ∧
    (∀ (a : String) (f0 : Option (List Char)),
      Mastodon.save_tokens a true f0 =
          SaveOutcome.ok (some (Mastodon.toJson ⟨a⟩)) ∧
      Mastodon.save_tokens a false f0 = SaveOutcome.panicked) :=
  ⟨fun a r d f0 => ⟨rfl, rfl⟩, fun a rt f0 => ⟨rfl, rfl⟩, fun a f0 => ⟨rfl, rfl⟩⟩

/-- C8: after one press of the Post button the resulting session state is the
old state with the message buffer cleared — unconditionally, whatever mix of
successes and failures the platforms produced, and with no authorization
flag touched; and each platform's outcome depends only on that platform's
own responses, so one platform's failure cannot change another's outcome. -/
theorem C8_broadcast_clears_buffer_and_platforms_independent :
    (∀ (sel : Selected) (env : BroadcastEnv) (st : AppState) (fs : Files),
      (postButtonHandler sel env st fs).state = { st with post_text := "" }) ∧
    (∀ (sel : Selected) (st : AppState) (fs : Files) (env env' : BroadcastEnv),
      env.twPosts = env'.twPosts → env.twRefresh = env'.twRefresh →
      env.twReauth = env'.twReauth →
      (postButtonHandler sel env st fs).twitterOutcome =
        (postButtonHandler sel env' st fs).twitterOutcome) ∧
    (∀ (sel : Selected) (st : AppState) (fs : Files) (env env' : BroadcastEnv),
      env.bsky = env'.bsky →
      (postButtonHandler sel env st fs).blueskyOutcome =
        (postButtonHandler sel env' st fs).blueskyOutcome) ∧
    (∀ (sel : Selected) (st : AppState) (fs : Files) (env env' : BroadcastEnv),
      env.mastoPost = env'.mastoPost →
      (postButtonHandler sel env st fs).mastodonOutcome =
        (postButtonHandler sel env' st fs).mastodonOutcome) ∧
    (∀ (sel : Selected) (st : AppState) (fs : Files) (env env' : BroadcastEnv),
      env.linkedin = env'.linkedin →
      (postButtonHandler sel env st fs).linkedinOutcome =
        (postButtonHandler sel env' st fs).linkedinOutcome) := by
  refine ⟨?_, ?_, ?_, ?_, ?_⟩
  · intro sel env st fs
    rfl
  · intro sel st fs env env' h1 h2 h3
    simp only [postButtonHandler]
    rw [h1, h2, h3]
  · intro sel st fs env env' h
    simp only [postButtonHandler]
    rw [h]
  · intro sel st fs env env' h
    simp only [postButtonHandler]
    rw [h]
  · intro sel st fs env env' h
    simp only [postButtonHandler]
    rw [h]

/-- C8 witness: broadcasting to all platforms where Twitter fails
(`c8EnvA`) or succeeds (`c8EnvB`): the buffer is cleared and the Bluesky,
Mastodon and LinkedIn outcomes are identical in both worlds. -/
theorem C8_witness :
    (postButtonHandler c8SelAll c8EnvA c8State c8Files).state =
        { c8State with post_text := "" } ∧
    (postButtonHandler c8SelAll c8EnvA c8State c8Files).blueskyOutcome =
      (postButtonHandler c8SelAll c8EnvB c8State c8Files).blueskyOutcome ∧
    (postButtonHandler c8SelAll c8EnvA c8State c8Files).mastodonOutcome =
      (postButtonHandler c8SelAll c8EnvB c8State c8Files).mastodonOutcome ∧
    (postButtonHandler c8SelAll c8EnvA c8State c8Files).linkedinOutcome =
      (postButtonHandler c8SelAll c8EnvB c8State c8Files).linkedinOutcome :=
  ⟨C8_broadcast_clears_buffer_and_platforms_independent.1 c8SelAll c8EnvA c8State c8Files,
   C8_broadcast_clears_buffer_and_platforms_independent.2.2.1 c8SelAll c8State c8Files
     c8EnvA c8EnvB rfl,
   C8_broadcast_clears_buffer_and_platforms_independent.2.2.2.1 c8SelAll c8State c8Files
     c8EnvA c8EnvB rfl,
   C8_broadcast_clears_buffer_and_platforms_independent.2.2.2.2 c8SelAll c8State c8Files
     c8EnvA c8EnvB rfl⟩

/-- C9 counterexample: the invariant "accessToken is never empty when
authorized is true" is not preserved by `authorize_bluesky`: a successful
createSession response carrying an empty `accessJwt` makes the state
authorized while holding the empty token, since no operation validates
non-emptiness. -/
theorem C9_counterexample_empty_access_token :
    ¬ blueskyTokenInv (Bluesky.authorize_bluesky
        (Bluesky.SessionResp.success ⟨"", "R", "d"⟩) AppState.default none).2.1 := by
  intro h
  obtain ⟨t, ht, hne⟩ := h rfl
  have hb : (Bluesky.authorize_bluesky
      (Bluesky.SessionResp.success ⟨"", "R", "d"⟩) AppState.default none).2.1.bluesky_token =
      some "" := rfl
  rw [hb] at ht
  exact hne (Option.some.inj ht).symm

/-- C9 (amended): the initial state satisfies the invariant, and every
modelled operation preserves it provided the access tokens entering the
session (from the createSession response or from the stored record) are
non-empty; the code itself performs no such validation. -/
theorem C9_invariant_preserved_given_nonempty_tokens :
    blueskyTokenInv AppState.default ∧
    (∀ (resp : Bluesky.SessionResp) (st : AppState) (file : Option (List Char)),
      (∀ t, resp = Bluesky.SessionResp.success t → t.access_jwt ≠ "") →
      blueskyTokenInv st →
      blueskyTokenInv (Bluesky.authorize_bluesky resp st file).2.1) ∧
    (∀ (file : Option (List Char)) (st : AppState),
      (∀ t, Bluesky.load_tokens file = some t → t.access_jwt ≠ "") →
      blueskyTokenInv st →
      blueskyTokenInv (initBlueskyState file st)) ∧
    (∀ (sel : Selected) (env : BroadcastEnv) (st : AppState) (fs : Files),
      blueskyTokenInv st →
      blueskyTokenInv (postButtonHandler sel env st fs).state) ∧
    (∀ (resp : Mastodon.AuthResp) (st : AppState) (file : Option (List Char)),
      blueskyTokenInv st →
      blueskyTokenInv (mastodonAuthCallback resp st file).1) ∧
    (∀ (resp : Twitter.AuthResp) (st : AppState) (file : Option (List Char)),
      blueskyTokenInv st →
      blueskyTokenInv (Twitter.authorize_twitter resp st file).2.1) := by
  refine ⟨?_, ?_, ?_, ?_, ?_, ?_⟩
  · intro h
    simp [AppState.default] at h
  · intro resp st file hresp hst
    cases resp with
    | success t =>
      intro _
      exact ⟨t.access_jwt, rfl, hresp t rfl⟩
    | parseFail => exact hst
    | httpFail => exact hst
    | netErr => exact hst
  · intro file st hfile hst
    unfold initBlueskyState
    cases hl : Bluesky.load_tokens file with
    | some t =>
      intro _
      exact ⟨t.access_jwt, rfl, hfile t hl⟩
    | none => exact hst
  · intro sel env st fs hst
    exact hst
  · intro resp st file hst
    cases resp with
    | success t => exact hst
    | parseFail => exact hst
    | httpFail => exact hst
    | netErr => exact hst
  · intro resp st file hst
    cases resp with
    | success t => exact hst
    | parseFail => exact hst
    | httpFail => exact hst
    | netErr => exact hst

/-- C9 witness: authorizing Bluesky from the default state with a successful
response carrying the non-empty access token "A" yields a state satisfying
the invariant. -/
theorem C9_witness :
    blueskyTokenInv (Bluesky.authorize_bluesky
      (Bluesky.SessionResp.success ⟨"A", "R", "d"⟩) AppState.default none).2.1 :=
  C9_invariant_preserved_given_nonempty_tokens.2.1
    (Bluesky.SessionResp.success ⟨"A", "R", "d"⟩) AppState.default none
    (fun t h => by cases h; decide)
    C9_invariant_preserved_given_nonempty_tokens.1

/-- C10: if the first Bluesky `createRecord` attempt returns 401 while no
stored token record exists, the call returns false immediately after that
single attempt — no refresh, no reauthorization, file untouched; moreover no
Bluesky run reauthorizes more often than it attempts a refresh, so the
password-grant reauthorization is only reachable after a failed refresh of a
stored record. -/
theorem C10_bluesky_401_without_record_fails_immediately :
    (∀ (env : Bluesky.Env) (token text user_did : String) (file : Option (List Char)),
      env.post 0 = PostResp.unauthorized → Bluesky.load_tokens file = none →
      Bluesky.post_to_bluesky env token text user_did file =
        ⟨false, file, [Event.createPost token]⟩) ∧
    (∀ (env : Bluesky.Env) (token text user_did : String) (file : Option (List Char)),
      ((Bluesky.post_to_bluesky env token text user_did file).trace).countP isReauth ≤
        ((Bluesky.post_to_bluesky env token text user_did file).trace).countP isRefresh) := by
  constructor
  · intro env token text user_did file h0 hload
    simp [Bluesky.post_to_bluesky, Bluesky.postLoop, h0, hload]
  · intro env token text user_did file
    have h := bskyLoop_reauth_le_refresh env 2 0 0 0 token file []
    simpa [Bluesky.post_to_bluesky] using h

/-- C10 witness: with every request rejected and no token file, the Bluesky
post call fails after exactly one attempt with an empty side-effect trace
beyond it. -/
theorem C10_witness :
    Bluesky.post_to_bluesky bskyEnvC10 "A" "hi" "did:plc:x" none =
      ⟨false, none, [Event.createPost "A"]⟩ :=
  C10_bluesky_401_without_record_fails_immediately.1 bskyEnvC10 "A" "hi" "did:plc:x" none rfl rfl
